import Mathlib

/-!
Verification development for the `outjet/garage-api` repository.

The repository drives a garage-door relay and a buzzer from a Flask app on a
Raspberry Pi.  Two scripts implement the service:

* `src/app.py` — the main service: lock-protected relay pulses
  (`activate_gpio_pin` with `relay_lock` and `try/finally`), bearer-token
  parsing (`token_required`), token issuance (`get_token`), door handlers
  (`door_up`, `door_down`, `door_status`), basic-auth (`verify_password`)
  and an opaque global error handler (`handle_exception`).
* `src/up.py` — a near-duplicate with different bodies for
  `activate_gpio_pin` (no lock, no `try/finally`), `token_required`
  (raw Authorization header passed to `jwt.decode`) and `handle_exception`
  (returns `str(e)`), plus a module-level call `toggle_door()`.

The definitions below are shallow embeddings of those Python functions.
GPIO levels are the inductive `Level`; time is `Int` seconds; pulse
durations are in milliseconds (`0.5` seconds is `500 : Nat`).
-/

/-- A digital GPIO level, `gpio.HIGH` / `gpio.LOW`. -/
inductive Level where
  | high
  | low
deriving DecidableEq, Repr

/-- GPIO pin constant `PIN_DOWN_SENSOR = 20` (app.py line 39 default, up.py line 31). -/
def PIN_DOWN_SENSOR : Nat := 20

/-- GPIO pin constant `PIN_UP_SENSOR = 21` (app.py line 40 default, up.py line 32). -/
def PIN_UP_SENSOR : Nat := 21

/-- GPIO pin constant `PIN_DOOR_CONTROL = 16` (app.py line 41 default, up.py line 33). -/
def PIN_DOOR_CONTROL : Nat := 16

/-- GPIO pin constant `PIN_BUZZER = 19` (app.py line 42 default, up.py line 34). -/
def PIN_BUZZER : Nat := 19

/-- The live levels on the two sensor input pins at the moment of a request.
Both sensors are wired pull-up / active-low: triggered = `Level.low`. -/
structure SensorEnv where
  downSensor : Level
  upSensor : Level
deriving DecidableEq, Repr

/-- `is_door_down` (app.py lines 134-137): `gpio.input(PIN_DOWN_SENSOR) == gpio.LOW`. -/
def is_door_down (env : SensorEnv) : Bool :=
  env.downSensor == Level.low

/-- `is_door_up` (app.py lines 140-143): `gpio.input(PIN_UP_SENSOR) == gpio.LOW`. -/
def is_door_up (env : SensorEnv) : Bool :=
  env.upSensor == Level.low

/-- One relay pulse: the pin driven and the hold duration in milliseconds. -/
structure Pulse where
  pin : Nat
  durationMs : Nat
deriving DecidableEq, Repr

/-- The pulse performed by one call of `activate_gpio_pin(pin, duration)`
(app.py lines 123-131): drive `pin` high, hold `duration` seconds, drive low. -/
def activate_gpio_pin_pulses (pin : Nat) (durationMs : Nat) : List Pulse :=
  [⟨pin, durationMs⟩]

/-- `toggle_door` (app.py lines 113-115, up.py lines 69-70):
`activate_gpio_pin(PIN_DOOR_CONTROL, 0.5)`. -/
def toggle_door_pulses : List Pulse :=
  activate_gpio_pin_pulses PIN_DOOR_CONTROL 500

/-- `buzz_buzzer` (app.py lines 118-120, up.py lines 73-74):
`activate_gpio_pin(PIN_BUZZER, 0.5)`. -/
def buzz_buzzer_pulses : List Pulse :=
  activate_gpio_pin_pulses PIN_BUZZER 500

/-- A door-endpoint response: JSON `status` string, HTTP code, and the relay
pulses fired while handling the request. -/
structure DoorResp where
  status : String
  code : Nat
  pulses : List Pulse
deriving DecidableEq, Repr

/-- `door_up` (app.py lines 166-175): if `is_door_up()` answer
"Door is already up" with no pulse, else `toggle_door()` and answer
"Door is going up". -/
def door_up (env : SensorEnv) : DoorResp :=
  if is_door_up env then
    ⟨"Door is already up", 200, []⟩
  else
    ⟨"Door is going up", 200, toggle_door_pulses⟩

/-- `door_down` (app.py lines 177-186): if `is_door_down()` answer
"Door is already down" with no pulse, else `toggle_door()` and answer
"Door is going down". -/
def door_down (env : SensorEnv) : DoorResp :=
  if is_door_down env then
    ⟨"Door is already down", 200, []⟩
  else
    ⟨"Door is going down", 200, toggle_door_pulses⟩

/-- `door_status` (app.py lines 188-201): `is_door_down()` first, then
`is_door_up()`, else "in_transition". -/
def door_status (env : SensorEnv) : String :=
  if is_door_down env then "down"
  else if is_door_up env then "up"
  else "in_transition"

/-- Claim C3: an authenticated up request with the up sensor triggered returns
"Door is already up" and fires no pulse; otherwise it fires exactly one
0.5-second pulse on the door-control pin and returns "Door is going up";
symmetrically for the down request guarded by the down sensor. -/
theorem door_requests_guarded_by_sensors (env : SensorEnv) :
    (is_door_up env = true →
      (door_up env).status = "Door is already up" ∧ (door_up env).pulses = []) ∧
    (is_door_up env = false →
      (door_up env).status = "Door is going up" ∧
        (door_up env).pulses = [⟨PIN_DOOR_CONTROL, 500⟩]) ∧
    (is_door_down env = true →
      (door_down env).status = "Door is already down" ∧ (door_down env).pulses = []) ∧
    (is_door_down env = false →
      (door_down env).status = "Door is going down" ∧
        (door_down env).pulses = [⟨PIN_DOOR_CONTROL, 500⟩]) := by
  obtain ⟨d, u⟩ := env
  cases d <;> cases u <;> exact ⟨by decide, by decide, by decide, by decide⟩

/-- Witness for C3: both branches of each guard, exercised on the concrete
sensor environments (up triggered) and (neither triggered). -/
theorem door_requests_guarded_by_sensors_witness :
    ((door_up ⟨Level.high, Level.low⟩).status = "Door is already up" ∧
      (door_up ⟨Level.high, Level.low⟩).pulses = []) ∧
    ((door_up ⟨Level.high, Level.high⟩).status = "Door is going up" ∧
      (door_up ⟨Level.high, Level.high⟩).pulses = [⟨PIN_DOOR_CONTROL, 500⟩]) ∧
    ((door_down ⟨Level.low, Level.high⟩).status = "Door is already down" ∧
      (door_down ⟨Level.low, Level.high⟩).pulses = []) ∧
    ((door_down ⟨Level.high, Level.high⟩).status = "Door is going down" ∧
      (door_down ⟨Level.high, Level.high⟩).pulses = [⟨PIN_DOOR_CONTROL, 500⟩]) :=
  ⟨(door_requests_guarded_by_sensors ⟨Level.high, Level.low⟩).1 (by decide),
   (door_requests_guarded_by_sensors ⟨Level.high, Level.high⟩).2.1 (by decide),
   (door_requests_guarded_by_sensors ⟨Level.low, Level.high⟩).2.2.1 (by decide),
   (door_requests_guarded_by_sensors ⟨Level.high, Level.high⟩).2.2.2 (by decide)⟩

/-- Claim C4: `door_status` returns "down" exactly when the down sensor reads
low (triggered), "up" exactly when down is not triggered and up is, and
"in_transition" exactly when neither is; both triggered yields "down". -/
theorem door_status_precedence (env : SensorEnv) :
    (door_status env = "down" ↔ env.downSensor = Level.low) ∧
    (door_status env = "up" ↔ env.downSensor ≠ Level.low ∧ env.upSensor = Level.low) ∧
    (door_status env = "in_transition" ↔
      env.downSensor ≠ Level.low ∧ env.upSensor ≠ Level.low) ∧
    door_status ⟨Level.low, Level.low⟩ = "down" := by
  obtain ⟨d, u⟩ := env
  cases d <;> cases u <;> refine ⟨?_, ?_, ?_, ?_⟩ <;> simp [door_status, is_door_down, is_door_up]

/-- Witness for C4: with both sensors triggered the status is "down". -/
theorem door_status_precedence_witness :
    door_status ⟨Level.low, Level.low⟩ = "down" :=
  (door_status_precedence ⟨Level.low, Level.low⟩).1.mpr rfl

/-- An observable effect tracked by the model: a relay pulse, a sensor read,
or an authentication check. -/
inductive Effect where
  | pulse (pin : Nat) (durationMs : Nat)
  | sensorRead (pin : Nat)
  | authCheck
deriving DecidableEq, Repr

/-- Effects of executing the top level of `src/up.py` at import time.  Lines
1-47 are imports, Flask/CORS construction, logging and constant definitions
(none of them pulses, sensor reads or auth checks); lines 50-94 are `def`s
and contribute nothing at import; the one effectful statement is the
module-level call `toggle_door()` at line 96, which is not behind any route,
decorator or sensor guard. -/
def up_module_import_effects : List Effect :=
  toggle_door_pulses.map fun p => Effect.pulse p.pin p.durationMs

/-- Claim C10: importing `src/up.py` unconditionally fires exactly one
0.5-second pulse on the door-control pin, with no authentication check and
no sensor read. -/
theorem up_module_import_fires_unguarded_pulse :
    up_module_import_effects = [Effect.pulse PIN_DOOR_CONTROL 500] ∧
    Effect.authCheck ∉ up_module_import_effects ∧
    ∀ p, Effect.sensorRead p ∉ up_module_import_effects := by
  refine ⟨rfl, by decide, ?_⟩
  intro p h
  simp [up_module_import_effects, toggle_door_pulses, activate_gpio_pin_pulses] at h

/-- Witness for C10 at the concrete sensor pin 21: the import trace is the
single door pulse and contains no read of the up sensor. -/
theorem up_module_import_fires_unguarded_pulse_witness :
    up_module_import_effects = [Effect.pulse PIN_DOOR_CONTROL 500] ∧
    Effect.sensorRead PIN_UP_SENSOR ∉ up_module_import_effects :=
  ⟨up_module_import_fires_unguarded_pulse.1,
   up_module_import_fires_unguarded_pulse.2.2 PIN_UP_SENSOR⟩

/-- A primitive event performed while a call of `activate_gpio_pin` runs. -/
inductive PulseEv where
  | acquireLock
  | gpioWrite (pin : Nat) (lvl : Level)
  | sleep (durationMs : Nat)
  | releaseLock
deriving DecidableEq, Repr

/-- `activate_gpio_pin` of app.py (lines 123-131):
`with relay_lock: gpio.output(pin, HIGH); try: time.sleep(duration)
finally: gpio.output(pin, LOW)`.  Python semantics embedded explicitly:
the `with` statement releases the lock on both normal exit and unwind, and
the `finally` block runs the LOW write even when `time.sleep` raises.
`sleepRaises` is the exception oracle (`true` = the hold wait is
interrupted; only a completed sleep is recorded as an event).  Returns the
event trace and whether the call returned normally. -/
def activate_gpio_pin_app (pin : Nat) (durationMs : Nat) (sleepRaises : Bool) :
    List PulseEv × Bool :=
  if sleepRaises then
    ([PulseEv.acquireLock, PulseEv.gpioWrite pin Level.high,
      PulseEv.gpioWrite pin Level.low, PulseEv.releaseLock], false)
  else
    ([PulseEv.acquireLock, PulseEv.gpioWrite pin Level.high, PulseEv.sleep durationMs,
      PulseEv.gpioWrite pin Level.low, PulseEv.releaseLock], true)

/-- `activate_gpio_pin` of up.py (lines 77-80):
`gpio.output(pin, HIGH); time.sleep(duration); gpio.output(pin, LOW)` —
no lock and no `try/finally`: when `time.sleep` raises, the function
unwinds before the LOW write. -/
def activate_gpio_pin_up (pin : Nat) (durationMs : Nat) (sleepRaises : Bool) :
    List PulseEv × Bool :=
  if sleepRaises then
    ([PulseEv.gpioWrite pin Level.high], false)
  else
    ([PulseEv.gpioWrite pin Level.high, PulseEv.sleep durationMs,
      PulseEv.gpioWrite pin Level.low], true)

/-- Counterexample to C2 as stated: in up.py's `activate_gpio_pin`, a call on
the door pin whose hold wait is interrupted ends with the pin still high —
the trace contains no LOW write at all (and no lock exists there). -/
theorem activate_up_interrupted_leaves_pin_high :
    (activate_gpio_pin_up PIN_DOOR_CONTROL 500 true).1 =
      [PulseEv.gpioWrite PIN_DOOR_CONTROL Level.high] ∧
    PulseEv.gpioWrite PIN_DOOR_CONTROL Level.low ∉
      (activate_gpio_pin_up PIN_DOOR_CONTROL 500 true).1 := by
  refine ⟨rfl, by decide⟩

/-- Claim C2 amended to app.py's `activate_gpio_pin`: on every exit path —
the hold wait completing or raising — the trace contains a LOW write on the
pin, and that LOW write precedes the lock release. -/
theorem activate_app_drives_low_before_release (pin durationMs : Nat) (sleepRaises : Bool) :
    ∃ i j, i < j ∧
      (activate_gpio_pin_app pin durationMs sleepRaises).1.get? i =
        some (PulseEv.gpioWrite pin Level.low) ∧
      (activate_gpio_pin_app pin durationMs sleepRaises).1.get? j =
        some PulseEv.releaseLock := by
  cases sleepRaises
  · exact ⟨3, 4, by decide, rfl, rfl⟩
  · exact ⟨2, 3, by decide, rfl, rfl⟩

/-- An error-handler outcome: what is logged server-side, the JSON `error`
body sent to the caller, and the HTTP code. -/
structure ErrResp where
  logDetail : String
  body : String
  code : Nat
deriving DecidableEq, Repr

/-- `handle_exception` of app.py (lines 146-149): logs the exception with
`exc_info=True` and returns `jsonify(error="An unexpected error occurred"),
500`.  The exception is modelled by its string rendering `str(e)`. -/
def handle_exception_app (e : String) : ErrResp :=
  ⟨e, "An unexpected error occurred", 500⟩

/-- `handle_exception` of up.py (lines 91-94): logs the exception and returns
`jsonify(error=str(e)), 500`. -/
def handle_exception_up (e : String) : ErrResp :=
  ⟨e, e, 500⟩

/-- Counterexample to C8 as stated: up.py's `handle_exception` puts `str(e)`
itself in the 500 body, so the body contains the exception detail and two
different exceptions produce two different bodies. -/
theorem handle_exception_up_leaks_detail :
    (handle_exception_up "disk full at /garage").body = "disk full at /garage" ∧
    (handle_exception_up "disk full at /garage").body ≠
      (handle_exception_up "other failure").body :=
  ⟨rfl, by decide⟩

/-- Claim C8 amended to app.py's `handle_exception`: the response is always
HTTP 500 with the fixed body "An unexpected error occurred", identical for
every exception, while the full detail goes to the server-side log. -/
theorem handle_exception_app_opaque (e₁ e₂ : String) :
    (handle_exception_app e₁).body = "An unexpected error occurred" ∧
    (handle_exception_app e₁).code = 500 ∧
    (handle_exception_app e₁).body = (handle_exception_app e₂).body ∧
    (handle_exception_app e₁).logDetail = e₁ :=
  ⟨rfl, rfl, rfl, rfl⟩

/-- A JWT signing algorithm name. -/
inductive Alg where
  | HS256
  | HS512
deriving DecidableEq, Repr

/-- The claims payload of a token: subject and the three registered time
claims, in whole seconds. -/
structure Payload where
  sub : String
  iat : Int
  nbf : Int
  exp : Int
deriving DecidableEq, Repr

/-- A symmetric MAC over a payload: the algorithm, the key used and the
payload signed.  `⟨Alg.HS256, k, p⟩` models HMAC-SHA256 of `p` under `k`;
two MACs are equal exactly when algorithm, key and payload agree (an ideal
MAC, no collisions). -/
structure Sig where
  alg : Alg
  key : String
  signedPayload : Payload
deriving DecidableEq, Repr

/-- A serialized JWT: payload together with its signature. -/
structure Token where
  payload : Payload
  sig : Sig
deriving DecidableEq, Repr

/-- One whitespace-separated word of an Authorization header value: either
plain text or the serialization of a JWT.  JWT serializations are base64url
triples containing dots, so they never coincide with scheme words such as
"bearer"; the sum keeps the two classes distinct and the serialization
injective.  A whole header is `Option (List HeaderWord)`: `none` when the
header is absent, `some []` for a present-but-empty value. -/
inductive HeaderWord where
  | text (s : String)
  | jwt (t : Token)
deriving DecidableEq, Repr

/-- Outcome of `jwt.decode(raw, SECRET_KEY, algorithms=["HS256"])`.
Modelled from the spec: the token is accepted only if its signature is an
HS256 MAC under the process secret over its own payload and the current
time lies in `[nbf, exp)` (invariant I2); an expired token raises
`ExpiredSignatureError`; every other failure — plain-text input, wrong key,
wrong algorithm, tampered payload, future `nbf` — raises a subclass of
`InvalidTokenError`. -/
inductive DecodeOutcome where
  | ok (p : Payload)
  | expired
  | invalid
deriving DecidableEq, Repr

/-- The verification performed by `jwt.decode` on a raw input word; see
`DecodeOutcome`. -/
def jwt_decode (w : HeaderWord) (secret : String) (now : Int) : DecodeOutcome :=
  match w with
  | HeaderWord.text _ => DecodeOutcome.invalid
  | HeaderWord.jwt t =>
    if t.sig ≠ ⟨Alg.HS256, secret, t.payload⟩ then DecodeOutcome.invalid
    else if t.payload.exp ≤ now then DecodeOutcome.expired
    else if now < t.payload.nbf then DecodeOutcome.invalid
    else DecodeOutcome.ok t.payload

/-- Outcome of the `token_required` decorator on one request. -/
inductive AuthOutcome where
  | required   -- 401 with error "Token required"
  | expired    -- 401 with error "Token expired"
  | invalid    -- 401 with error "Invalid token"
  | proceed    -- the wrapped handler runs
deriving DecidableEq, Repr

/-- Python's `str.lower` on one ASCII character: an upper-case letter is
shifted down into lower case, everything else is unchanged. -/
def lowerChar (c : Char) : Char :=
  if c.isUpper then Char.ofNat (c.toNat + 32) else c

/-- Python's `str.lower` over the (ASCII) characters of a scheme word. -/
def lowerStr (s : String) : String := ⟨s.data.map lowerChar⟩

/-- The token-extraction step of app.py's `token_required` (lines 94-96):
`parts = authz.split()`; the bearer token is `parts[1]` when there are
exactly two words and the first lowercases to "bearer", else `None`.  An
absent header defaults to `""` via `headers.get("Authorization", "")`,
which splits to `[]`; `split()` never produces empty words, so `parts[1]`
is always truthy when present. -/
def extract_bearer (header : Option (List HeaderWord)) : Option HeaderWord :=
  match header.getD [] with
  | [HeaderWord.text s, w] => if lowerStr s = "bearer" then some w else none
  | _ => none

/-- `token_required` of app.py (lines 91-110): no bearer token extracted →
401 "Token required"; then `jwt.decode(token, SECRET_KEY, ["HS256"])`,
mapping `ExpiredSignatureError` to 401 "Token expired" and
`InvalidTokenError` to 401 "Invalid token"; otherwise the handler runs. -/
def token_required_app (header : Option (List HeaderWord)) (secret : String) (now : Int) :
    AuthOutcome :=
  match extract_bearer header with
  | none => AuthOutcome.required
  | some w =>
    match jwt_decode w secret now with
    | DecodeOutcome.expired => AuthOutcome.expired
    | DecodeOutcome.invalid => AuthOutcome.invalid
    | DecodeOutcome.ok _ => AuthOutcome.proceed

/-- `token_required` of up.py (lines 50-66): requests whose endpoint is
`get_token` bypass the check; otherwise the RAW Authorization header value
(no Bearer parsing) goes to `jwt.decode`, which only succeeds when the
whole header is exactly one JWT serialization.  A missing or empty header
is falsy → "Token required"; `except jwt.ExpiredSignatureError` →
"Token expired"; the bare `except:` → "Invalid token". -/
def token_required_up (endpointIsGetToken : Bool) (header : Option (List HeaderWord))
    (secret : String) (now : Int) : AuthOutcome :=
  if endpointIsGetToken then AuthOutcome.proceed
  else
    match header with
    | none => AuthOutcome.required
    | some [] => AuthOutcome.required
    | some [HeaderWord.jwt t] =>
      match jwt_decode (HeaderWord.jwt t) secret now with
      | DecodeOutcome.expired => AuthOutcome.expired
      | DecodeOutcome.invalid => AuthOutcome.invalid
      | DecodeOutcome.ok _ => AuthOutcome.proceed
    | some _ => AuthOutcome.invalid

/-- Counterexample to C5 as stated: in up.py's `token_required` a present
but malformed Authorization header (plain text, no recognizable bearer
credential) is answered with 401 "Invalid token", not 401 "Token
required". -/
theorem token_required_up_malformed_header_not_required :
    token_required_up false (some [HeaderWord.text "garbage"]) "secret0" 0 =
      AuthOutcome.invalid ∧
    AuthOutcome.invalid ≠ AuthOutcome.required :=
  ⟨rfl, by decide⟩

/-- Claim C5 amended to app.py's `token_required`: no bearer credential or a
malformed header → "Token required"; a token whose signature verifies but
whose expiry has passed → "Token expired"; any other verification failure
(plain-text token, bad signature / wrong key or algorithm, future
not-before) → "Invalid token"; otherwise the handler runs. -/
theorem token_required_app_classification (header : Option (List HeaderWord))
    (secret : String) (now : Int) :
    (extract_bearer header = none →
      token_required_app header secret now = AuthOutcome.required) ∧
    (∀ t, extract_bearer header = some (HeaderWord.jwt t) →
      t.sig = ⟨Alg.HS256, secret, t.payload⟩ → t.payload.exp ≤ now →
      token_required_app header secret now = AuthOutcome.expired) ∧
    (∀ s, extract_bearer header = some (HeaderWord.text s) →
      token_required_app header secret now = AuthOutcome.invalid) ∧
    (∀ t, extract_bearer header = some (HeaderWord.jwt t) →
      t.sig ≠ ⟨Alg.HS256, secret, t.payload⟩ →
      token_required_app header secret now = AuthOutcome.invalid) ∧
    (∀ t, extract_bearer header = some (HeaderWord.jwt t) →
      t.sig = ⟨Alg.HS256, secret, t.payload⟩ → now < t.payload.exp → now < t.payload.nbf →
      token_required_app header secret now = AuthOutcome.invalid) ∧
    (∀ t, extract_bearer header = some (HeaderWord.jwt t) →
      t.sig = ⟨Alg.HS256, secret, t.payload⟩ → now < t.payload.exp → t.payload.nbf ≤ now →
      token_required_app header secret now = AuthOutcome.proceed) := by
  refine ⟨?_, ?_, ?_, ?_, ?_, ?_⟩
  · intro h
    simp [token_required_app, h]
  · intro t ht hsig hexp
    simp [token_required_app, ht, jwt_decode, hsig, hexp]
  · intro s hs
    simp [token_required_app, hs, jwt_decode]
  · intro t ht hsig
    simp [token_required_app, ht, jwt_decode, hsig]
  · intro t ht hsig hexp hnbf
    simp [token_required_app, ht, jwt_decode, hsig, hexp.not_le, hnbf]
  · intro t ht hsig hexp hnbf
    simp [token_required_app, ht, jwt_decode, hsig, hexp.not_le, hnbf.not_lt]

/-- Witness for C5 (amended): the four outcomes at concrete headers — absent
header, expired-but-well-signed token, plain-text token word, and a fresh
well-signed token. -/
theorem token_required_app_classification_witness :
    token_required_app none "k" 100 = AuthOutcome.required ∧
    token_required_app (some [HeaderWord.text "Bearer",
      HeaderWord.jwt ⟨⟨"alice", 0, 0, 50⟩, ⟨Alg.HS256, "k", ⟨"alice", 0, 0, 50⟩⟩⟩])
      "k" 100 = AuthOutcome.expired ∧
    token_required_app (some [HeaderWord.text "Bearer", HeaderWord.text "xyz"]) "k" 100 =
      AuthOutcome.invalid ∧
    token_required_app (some [HeaderWord.text "Bearer",
      HeaderWord.jwt ⟨⟨"alice", 100, 100, 1900⟩, ⟨Alg.HS256, "k", ⟨"alice", 100, 100, 1900⟩⟩⟩])
      "k" 100 = AuthOutcome.proceed :=
  ⟨(token_required_app_classification none "k" 100).1 rfl,
   (token_required_app_classification (some [HeaderWord.text "Bearer",
      HeaderWord.jwt ⟨⟨"alice", 0, 0, 50⟩, ⟨Alg.HS256, "k", ⟨"alice", 0, 0, 50⟩⟩⟩])
      "k" 100).2.1 ⟨⟨"alice", 0, 0, 50⟩, ⟨Alg.HS256, "k", ⟨"alice", 0, 0, 50⟩⟩⟩
      (by decide) rfl (by decide),
   (token_required_app_classification (some [HeaderWord.text "Bearer",
      HeaderWord.text "xyz"]) "k" 100).2.2.1 "xyz" (by decide),
   (token_required_app_classification (some [HeaderWord.text "Bearer",
      HeaderWord.jwt ⟨⟨"alice", 100, 100, 1900⟩, ⟨Alg.HS256, "k", ⟨"alice", 100, 100, 1900⟩⟩⟩])
      "k" 100).2.2.2.2.2 ⟨⟨"alice", 100, 100, 1900⟩, ⟨Alg.HS256, "k", ⟨"alice", 100, 100, 1900⟩⟩⟩
      (by decide) rfl (by decide) (by decide)⟩

/-- `get_token` (app.py lines 152-164), reached after `auth.login_required`
verifies the Basic credentials: `now = datetime.utcnow()`; payload
`{sub: current_user, iat: now, nbf: now, exp: now + timedelta(minutes=30)}`;
encoded with `jwt.encode(payload, SECRET_KEY, algorithm="HS256")`.  Time is
in whole seconds, so 30 minutes is `30 * 60`. -/
def get_token (now : Int) (secret : String) (currentUser : String) : Token :=
  let payload : Payload := ⟨currentUser, now, now, now + 30 * 60⟩
  ⟨payload, ⟨Alg.HS256, secret, payload⟩⟩

/-- Claim C7: every issued token has issued-at = not-before = issuance time,
expiry = issuance time + exactly 30 minutes (1800 s), and an HMAC-SHA256
signature under the server-held secret over its own payload. -/
theorem get_token_fields (now : Int) (secret currentUser : String) :
    (get_token now secret currentUser).payload.iat = now ∧
    (get_token now secret currentUser).payload.nbf = now ∧
    (get_token now secret currentUser).payload.exp = now + 1800 ∧
    (get_token now secret currentUser).sig =
      ⟨Alg.HS256, secret, (get_token now secret currentUser).payload⟩ :=
  ⟨rfl, rfl, by norm_num [get_token], rfl⟩

/-- An ideal password hash: `generate_password_hash` is injective and
`check_password_hash h p` succeeds exactly when `h` is the hash of `p`
(werkzeug's documented contract, modelled without collisions). -/
structure PwHash where
  ofPassword : String
deriving DecidableEq, Repr

/-- Model of werkzeug's `generate_password_hash`. -/
def generate_password_hash (p : String) : PwHash := ⟨p⟩

/-- Model of werkzeug's `check_password_hash`. -/
def check_password_hash (h : PwHash) (p : String) : Bool := h.ofPassword == p

/-- The credential map (app.py lines 74-76): the single entry
`{USER_NAME: generate_password_hash(USER_PASSWORD)}`, parameterized by the
two environment values. -/
def users (userName userPassword : String) : List (String × PwHash) :=
  [(userName, generate_password_hash userPassword)]

/-- `verify_password` (app.py lines 78-81): `if username in users and
check_password_hash(users.get(username), password): return username`; every
fall-through returns Python's implicit `None`. -/
def verify_password (userName userPassword username password : String) : Option String :=
  match (users userName userPassword).lookup username with
  | some h => if check_password_hash h password then some username else none
  | none => none

/-- Claim C9: an unknown username fails exactly like a known username with a
wrong password — both return `None`, indistinguishable to the caller. -/
theorem verify_password_no_username_leak
    (userName userPassword unknownUser p₁ p₂ : String)
    (hu : unknownUser ≠ userName) (hp : p₂ ≠ userPassword) :
    verify_password userName userPassword unknownUser p₁ =
      verify_password userName userPassword userName p₂ ∧
    verify_password userName userPassword unknownUser p₁ = none := by
  have hbu : (unknownUser == userName) = false := beq_eq_false_iff_ne.mpr hu
  have hbp : (userPassword == p₂) = false := beq_eq_false_iff_ne.mpr (Ne.symm hp)
  have h₁ : verify_password userName userPassword unknownUser p₁ = none := by
    simp [verify_password, users, List.lookup, hbu]
  have h₂ : verify_password userName userPassword userName p₂ = none := by
    simp [verify_password, users, List.lookup, check_password_hash,
      generate_password_hash, hbp]
  exact ⟨h₁.trans h₂.symm, h₁⟩

/-- Witness for C9: the unknown user "mallory" and the real user with a
wrong password get the same `None`. -/
theorem verify_password_no_username_leak_witness :
    verify_password "outjet" "gaxxe" "mallory" "guess1" =
      verify_password "outjet" "gaxxe" "outjet" "guess2" ∧
    verify_password "outjet" "gaxxe" "mallory" "guess1" = none :=
  verify_password_no_username_leak "outjet" "gaxxe" "mallory" "guess1" "guess2"
    (by decide) (by decide)

/-- Claim C6: valid credentials authenticate, and a token issued by
`get_token` at time `t` and presented as "Bearer token" to app.py's
`token_required` at any time `tv` before its expiry passes verification;
the verified payload carries the subject authenticated at issuance. -/
theorem issue_then_verify_roundtrip (userName userPassword secret : String)
    (t tv : Int) (hle : t ≤ tv) (hlt : tv < t + 1800) :
    verify_password userName userPassword userName userPassword = some userName ∧
    token_required_app
      (some [HeaderWord.text "Bearer", HeaderWord.jwt (get_token t secret userName)])
      secret tv = AuthOutcome.proceed ∧
    jwt_decode (HeaderWord.jwt (get_token t secret userName)) secret tv =
      DecodeOutcome.ok (get_token t secret userName).payload ∧
    (get_token t secret userName).payload.sub = userName := by
  have hb : lowerStr "Bearer" = "bearer" := by decide
  have hdec : jwt_decode (HeaderWord.jwt (get_token t secret userName)) secret tv =
      DecodeOutcome.ok (get_token t secret userName).payload := by
    simp only [jwt_decode, get_token]
    rw [if_neg (by simp), if_neg (by omega), if_neg (by omega)]
  refine ⟨?_, ?_, hdec, rfl⟩
  · simp [verify_password, users, List.lookup, check_password_hash, generate_password_hash]
  · simp [token_required_app, extract_bearer, hb, hdec]

/-- Witness for C6: credentials ("outjet", "gaxxe"), a token issued at
second 1000 under key "k", verified at second 1500. -/
theorem issue_then_verify_roundtrip_witness :
    verify_password "outjet" "gaxxe" "outjet" "gaxxe" = some "outjet" ∧
    token_required_app
      (some [HeaderWord.text "Bearer", HeaderWord.jwt (get_token 1000 "k" "outjet")])
      "k" 1500 = AuthOutcome.proceed ∧
    jwt_decode (HeaderWord.jwt (get_token 1000 "k" "outjet")) "k" 1500 =
      DecodeOutcome.ok (get_token 1000 "k" "outjet").payload ∧
    (get_token 1000 "k" "outjet").payload.sub = "outjet" :=
  issue_then_verify_roundtrip "outjet" "gaxxe" "k" 1000 1500 (by decide) (by decide)

/-- Shared state of `n` worker threads each running one call of app.py's
`activate_gpio_pin` (lines 123-131).  `lockHolder` is `relay_lock`
(app.py line 88, "single relay fire at a time").  The program counter of a
thread:
0 = before `with relay_lock` (waiting to acquire);
1 = lock held, before `gpio.output(pin, HIGH)`;
2 = pin driven high, inside the `try` hold wait;
3 = hold wait over (completed or interrupted), before the `finally` LOW write;
4 = pin driven low, before the `with` block exit releases the lock;
5 = returned.
A call is inside its active-high window exactly when its pc is 2 or 3. -/
structure RelayState (n : Nat) where
  lockHolder : Option (Fin n)
  pc : Fin n → Nat

/-- All threads at the entry of `activate_gpio_pin`, lock free. -/
def relayInit (n : Nat) : RelayState n := ⟨none, fun _ => 0⟩

/-- One atomic step of the `n`-thread system: any thread may acquire the
free lock, write HIGH, finish (or be interrupted in) the hold wait, write
LOW in the `finally`, or release the lock it holds at the `with` exit. -/
inductive RelayStep (n : Nat) : RelayState n → RelayState n → Prop where
  | acquire (s : RelayState n) (i : Fin n) :
      s.pc i = 0 → s.lockHolder = none →
      RelayStep n s ⟨some i, Function.update s.pc i 1⟩
  | writeHigh (s : RelayState n) (i : Fin n) :
      s.pc i = 1 → RelayStep n s ⟨s.lockHolder, Function.update s.pc i 2⟩
  | holdOver (s : RelayState n) (i : Fin n) (interrupted : Bool) :
      s.pc i = 2 → RelayStep n s ⟨s.lockHolder, Function.update s.pc i 3⟩
  | writeLow (s : RelayState n) (i : Fin n) :
      s.pc i = 3 → RelayStep n s ⟨s.lockHolder, Function.update s.pc i 4⟩
  | release (s : RelayState n) (i : Fin n) :
      s.pc i = 4 → s.lockHolder = some i →
      RelayStep n s ⟨none, Function.update s.pc i 5⟩

/-- States reachable from the initial one. -/
def RelayReachable (n : Nat) : RelayState n → Prop :=
  Relation.ReflTransGen (RelayStep n) (relayInit n)

/-- Lock discipline: with the lock free every thread is outside the
`with` body; with the lock held by `i`, thread `i` is inside the body
(pc 1..4) and every other thread is outside it. -/
def RelayInv (n : Nat) (s : RelayState n) : Prop :=
  match s.lockHolder with
  | none => ∀ i, s.pc i = 0 ∨ s.pc i = 5
  | some i => (1 ≤ s.pc i ∧ s.pc i ≤ 4) ∧ ∀ j, j ≠ i → s.pc j = 0 ∨ s.pc j = 5

theorem relayInv_init (n : Nat) : RelayInv n (relayInit n) := by
  simp [RelayInv, relayInit]

theorem relayInv_advance {n : Nat} {s : RelayState n} {i : Fin n} {a b : Nat}
    (hinv : RelayInv n s) (hpc : s.pc i = a) (ha : 1 ≤ a) (ha4 : a ≤ 4)
    (hb : 1 ≤ b) (hb4 : b ≤ 4) :
    RelayInv n ⟨s.lockHolder, Function.update s.pc i b⟩ := by
  cases hl : s.lockHolder with
  | none =>
      simp only [RelayInv, hl] at hinv
      rcases hinv i with h | h <;> omega
  | some k =>
      simp only [RelayInv, hl] at hinv ⊢
      obtain ⟨hk, hoth⟩ := hinv
      by_cases hik : i = k
      · subst hik
        refine ⟨⟨?_, ?_⟩, ?_⟩
        · rw [Function.update_same]; exact hb
        · rw [Function.update_same]; exact hb4
        · intro j hj
          rw [Function.update_noteq hj]
          exact hoth j hj
      · rcases hoth i hik with h | h <;> omega

theorem relayInv_step {n : Nat} {s t : RelayState n} (hinv : RelayInv n s)
    (hstep : RelayStep n s t) : RelayInv n t := by
  cases hstep with
  | acquire i hpc hlock =>
      simp only [RelayInv, hlock] at hinv
      simp only [RelayInv]
      refine ⟨⟨?_, ?_⟩, ?_⟩
      · rw [Function.update_same]
      · rw [Function.update_same]; omega
      · intro j hj
        rw [Function.update_noteq hj]
        exact hinv j
  | writeHigh i hpc =>
      exact relayInv_advance hinv hpc (by omega) (by omega) (by omega) (by omega)
  | holdOver i interrupted hpc =>
      exact relayInv_advance hinv hpc (by omega) (by omega) (by omega) (by omega)
  | writeLow i hpc =>
      exact relayInv_advance hinv hpc (by omega) (by omega) (by omega) (by omega)
  | release i hpc hlock =>
      simp only [RelayInv, hlock] at hinv
      obtain ⟨hk, hoth⟩ := hinv
      simp only [RelayInv]
      intro j
      by_cases hj : j = i
      · subst hj
        rw [Function.update_same]
        exact Or.inr rfl
      · rw [Function.update_noteq hj]
        exact hoth j hj

theorem relayInv_reachable {n : Nat} {s : RelayState n}
    (h : RelayReachable n s) : RelayInv n s := by
  induction h with
  | refl => exact relayInv_init n
  | tail hab hbc ih => exact relayInv_step ih hbc

/-- Claim C1 amended to app.py's `activate_gpio_pin` (the version guarded by
`relay_lock`): in every reachable state of `n` concurrent calls — door
toggles and buzzer pulses alike, they share the one lock — at most one call
is inside its active-high window, so simultaneous requests serialize into
non-overlapping pulses.  up.py's lockless `activate_gpio_pin` admits
overlap (`up_concurrent_pulses_overlap`). -/
theorem relay_pulses_mutually_exclusive {n : Nat} (s : RelayState n)
    (hs : RelayReachable n s) (i j : Fin n)
    (hi : s.pc i = 2 ∨ s.pc i = 3) (hj : s.pc j = 2 ∨ s.pc j = 3) : i = j := by
  have hinv := relayInv_reachable hs
  cases hl : s.lockHolder with
  | none =>
      simp only [RelayInv, hl] at hinv
      rcases hinv i with h | h <;> rcases hi with h2 | h2 <;> omega
  | some k =>
      simp only [RelayInv, hl] at hinv
      obtain ⟨hk, hoth⟩ := hinv
      by_cases hik : i = k
      · by_cases hjk : j = k
        · rw [hik, hjk]
        · rcases hoth j hjk with h | h <;> rcases hj with h2 | h2 <;> omega
      · rcases hoth i hik with h | h <;> rcases hi with h2 | h2 <;> omega

/-- Witness for C1 (amended): with two threads, the state where thread 0 has
acquired the lock and driven its pin high is reachable; applying the
theorem there instantiates the mutual-exclusion conclusion. -/
theorem relay_pulses_mutually_exclusive_witness :
    RelayReachable 2
      ⟨some 0, Function.update (Function.update (fun _ => 0) 0 1) 0 2⟩ ∧
    Function.update (Function.update (fun (_ : Fin 2) => 0) 0 1) 0 2 0 = 2 ∧
    (0 : Fin 2) = 0 := by
  have h1 : RelayStep 2 (relayInit 2) ⟨some 0, Function.update (fun _ => 0) 0 1⟩ :=
    RelayStep.acquire (relayInit 2) 0 rfl rfl
  have h2 : RelayStep 2 ⟨some 0, Function.update (fun _ => 0) 0 1⟩
      ⟨some 0, Function.update (Function.update (fun _ => 0) 0 1) 0 2⟩ :=
    RelayStep.writeHigh ⟨some 0, Function.update (fun _ => 0) 0 1⟩ 0 (by simp)
  have hreach : RelayReachable 2
      ⟨some 0, Function.update (Function.update (fun _ => 0) 0 1) 0 2⟩ :=
    Relation.ReflTransGen.tail (Relation.ReflTransGen.single h1) h2
  have hwin : Function.update (Function.update (fun (_ : Fin 2) => 0) 0 1) 0 2 0 = 2 := by
    simp
  exact ⟨hreach, hwin,
    relay_pulses_mutually_exclusive _ hreach 0 0 (Or.inl hwin) (Or.inl hwin)⟩

/-- Program counters of two concurrent calls of up.py's `activate_gpio_pin`
(lines 77-80), which takes no lock at all:
0 = before `gpio.output(pin, HIGH)`;
1 = pin driven high, in the hold wait — the active-high window;
2 = pin driven low, returned.
Both calls may drive outputs simultaneously (for instance a door toggle and
a buzzer, or two door toggles on the same pin). -/
structure UpPulseState where
  pcA : Nat
  pcB : Nat
deriving DecidableEq, Repr

/-- One atomic step of the two lockless calls. -/
inductive UpPulseStep : UpPulseState → UpPulseState → Prop where
  | highA (s : UpPulseState) : s.pcA = 0 → UpPulseStep s ⟨1, s.pcB⟩
  | highB (s : UpPulseState) : s.pcB = 0 → UpPulseStep s ⟨s.pcA, 1⟩
  | lowA (s : UpPulseState) : s.pcA = 1 → UpPulseStep s ⟨2, s.pcB⟩
  | lowB (s : UpPulseState) : s.pcB = 1 → UpPulseStep s ⟨s.pcA, 2⟩

/-- Counterexample to C1 as stated: up.py's `activate_gpio_pin` has no lock,
and from both calls at the function entry the system reaches, after the two
HIGH writes interleave, the state where both calls are simultaneously
inside their active-high windows — the two pulses overlap. -/
theorem up_concurrent_pulses_overlap :
    Relation.ReflTransGen UpPulseStep ⟨0, 0⟩ ⟨1, 1⟩ ∧
    (⟨1, 1⟩ : UpPulseState).pcA = 1 ∧ (⟨1, 1⟩ : UpPulseState).pcB = 1 := by
  refine ⟨?_, rfl, rfl⟩
  exact Relation.ReflTransGen.tail
    (Relation.ReflTransGen.single (UpPulseStep.highA ⟨0, 0⟩ rfl))
    (UpPulseStep.highB ⟨1, 0⟩ rfl)
